import Mathlib

/-!
Verification of the admission-control (rate-limiting) subsystem.

Shallow embedding of `api/middleware/rate_limit.py` (class `RateLimitMiddleware`
and its helpers).  Python floats are modelled by exact rationals (`ℚ`); Python
ints by `ℤ`; Python `//` and `%` by floor division `Int.fdiv` / `Int.fmod`
(matching Python's semantics); `int(x)` by truncation toward zero; fallible
store calls by `Except Unit`.  The Counter Store (`cache_manager`) is not part
of the sources and is modelled from the spec (§4.5).
-/

/-- Python `str` of a natural number: decimal digits, most significant first.
The first argument is fuel (`n + 1` suffices since `n / 10 < n` for `n ≥ 10`). -/
def natDigits : ℕ → ℕ → List Char
  | 0, _ => []
  | fuel + 1, n =>
    if n < 10 then ["0123456789".toList.getD n '0']
    else natDigits fuel (n / 10) ++ ["0123456789".toList.getD (n % 10) '0']

/-- Python `str(n)` for a natural number. -/
def natStr (n : ℕ) : String := String.mk (natDigits (n + 1) n)

/-- Python `str(i)` for an integer (used when formatting cache keys). -/
def intStr (i : ℤ) : String := if i < 0 then "-" ++ natStr i.natAbs else natStr i.toNat

/-- Python `int(x)` on a float: truncation toward zero, modelled on `ℚ`.
For `0 ≤ q` this is the floor `num.fdiv den`; for negative `q` it rounds up. -/
def pyIntTrunc (q : ℚ) : ℤ :=
  if 0 ≤ q then q.num.fdiv q.den else -((-q).num.fdiv (-q).den)

/-- Python truthiness of an optional string: `None` and `""` are falsy. -/
def strTruthy : Option String → Bool
  | some s => s ≠ ""
  | none => false

/-- Python `s.strip()`: remove leading and trailing whitespace. -/
def pyStrip (s : String) : String :=
  String.mk (((s.toList.dropWhile Char.isWhitespace).reverse.dropWhile
    Char.isWhitespace).reverse)

/-- Python `s.split(",")[0]`: the characters before the first comma. -/
def beforeFirstComma (s : String) : String :=
  String.mk (s.toList.takeWhile (fun c => c ≠ ','))

/-- Python `path.startswith(p)`. -/
def pyStartsWith (s p : String) : Bool := p.toList.isPrefixOf s.toList

/-- Python `s[:n]` on a string. -/
def pyTake (s : String) (n : ℕ) : String := String.mk (s.toList.take n)

/-! ## SHA-256 (`hashlib.sha256(...).hexdigest()`)

A direct implementation on `ℕ`, all words reduced mod `2 ^ 32`.  Bitwise
operations are written by structural recursion over 32 bits so that concrete
digests evaluate inside the kernel. -/

/-- Combine two naturals bit by bit with `f` on 32 bits (first arg is fuel). -/
def bitZip (f : ℕ → ℕ → ℕ) : ℕ → ℕ → ℕ → ℕ
  | 0, _, _ => 0
  | fuel + 1, a, b => f (a % 2) (b % 2) + 2 * bitZip f fuel (a / 2) (b / 2)

/-- 32-bit bitwise xor. -/
def xor32 (a b : ℕ) : ℕ := bitZip (fun x y => (x + y) % 2) 32 a b

/-- 32-bit bitwise and. -/
def and32 (a b : ℕ) : ℕ := bitZip (fun x y => x * y) 32 a b

/-- 32-bit bitwise complement (arguments are kept below `2 ^ 32`). -/
def not32 (a : ℕ) : ℕ := 2 ^ 32 - 1 - a

/-- Reduce mod `2 ^ 32`. -/
def mask32 (a : ℕ) : ℕ := a % 2 ^ 32

/-- 32-bit right rotation, expressed arithmetically (the two parts of the
rotation occupy disjoint bit ranges, so `+` is bitwise or). -/
def rotr32 (n x : ℕ) : ℕ := x / 2 ^ n + x % 2 ^ n * 2 ^ (32 - n)

/-- SHA-256 Σ₀. -/
def shaS0 (x : ℕ) : ℕ := xor32 (xor32 (rotr32 2 x) (rotr32 13 x)) (rotr32 22 x)

/-- SHA-256 Σ₁. -/
def shaS1 (x : ℕ) : ℕ := xor32 (xor32 (rotr32 6 x) (rotr32 11 x)) (rotr32 25 x)

/-- SHA-256 σ₀. -/
def shas0 (x : ℕ) : ℕ := xor32 (xor32 (rotr32 7 x) (rotr32 18 x)) (x / 2 ^ 3)

/-- SHA-256 σ₁. -/
def shas1 (x : ℕ) : ℕ := xor32 (xor32 (rotr32 17 x) (rotr32 19 x)) (x / 2 ^ 10)

/-- SHA-256 Ch. -/
def shaCh (e f g : ℕ) : ℕ := xor32 (and32 e f) (and32 (not32 e) g)

/-- SHA-256 Maj. -/
def shaMaj (a b c : ℕ) : ℕ := xor32 (xor32 (and32 a b) (and32 a c)) (and32 b c)

/-- The 64 SHA-256 round constants. -/
def shaK : List ℕ :=
  [1116352408, 1899447441, 3049323471, 3921009573, 961987163,
   1508970993, 2453635748, 2870763221, 3624381080, 310598401,
   607225278, 1426881987, 1925078388, 2162078206, 2614888103,
   3248222580, 3835390401, 4022224774, 264347078, 604807628,
   770255983, 1249150122, 1555081692, 1996064986, 2554220882,
   2821834349, 2952996808, 3210313671, 3336571891, 3584528711,
   113926993, 338241895, 666307205, 773529912, 1294757372,
   1396182291, 1695183700, 1986661051, 2177026350, 2456956037,
   2730485921, 2820302411, 3259730800, 3345764771, 3516065817,
   3600352804, 4094571909, 275423344, 430227734, 506948616,
   659060556, 883997877, 958139571, 1322822218, 1537002063,
   1747873779, 1955562222, 2024104815, 2227730452, 2361852424,
   2428436474, 2756734187, 3204031479, 3329325298]

/-- The initial SHA-256 hash state. -/
def shaH0 : List ℕ :=
  [1779033703, 3144134277, 1013904242, 2773480762,
   1359893119, 2600822924, 528734635, 1541459225]

/-- Group a byte list into big-endian 32-bit words. -/
def shaWords : List ℕ → List ℕ
  | b0 :: b1 :: b2 :: b3 :: rest =>
    (((b0 * 256 + b1) * 256 + b2) * 256 + b3) :: shaWords rest
  | _ => []

/-- Extend the 16-word message schedule by `fuel` further words. -/
def shaExtend (w : List ℕ) : ℕ → List ℕ
  | 0 => w
  | fuel + 1 =>
    let i := w.length
    let g := fun (j : ℕ) => w.getD (i - j) 0
    shaExtend (w ++ [mask32 (g 16 + shas0 (g 15) + g 7 + shas1 (g 2))]) fuel

/-- One SHA-256 compression round on the 8-word working state. -/
def shaRound (st : List ℕ) (kw : ℕ × ℕ) : List ℕ :=
  match st with
  | [a, b, c, d, e, f, g, h] =>
    let t1 := mask32 (h + shaS1 e + shaCh e f g + kw.1 + kw.2)
    let t2 := mask32 (shaS0 a + shaMaj a b c)
    [mask32 (t1 + t2), a, b, c, mask32 (d + t1), e, f, g]
  | _ => st

/-- Compress one 64-byte block into the hash state. -/
def shaCompress (hs : List ℕ) (block : List ℕ) : List ℕ :=
  let w := shaExtend (shaWords block) 48
  let st := (shaK.zip w).foldl shaRound hs
  (hs.zip st).map (fun p => mask32 (p.1 + p.2))

/-- Fold the compression function over all 64-byte blocks (fuel-recursive so
that concrete digests reduce in the kernel; `bytes.length` blocks suffice). -/
def shaBlocksFuel : ℕ → List ℕ → List ℕ → List ℕ
  | 0, hs, _ => hs
  | fuel + 1, hs, bytes =>
    match bytes with
    | [] => hs
    | b :: rest =>
      shaBlocksFuel fuel (shaCompress hs ((b :: rest).take 64)) ((b :: rest).drop 64)

/-- Fold the compression function over all 64-byte blocks. -/
def shaBlocks (hs : List ℕ) (bytes : List ℕ) : List ℕ :=
  shaBlocksFuel bytes.length hs bytes

/-- Big-endian byte expansion of `n` on `cnt` bytes. -/
def beBytes (n : ℕ) : ℕ → List ℕ
  | 0 => []
  | cnt + 1 => beBytes (n / 256) cnt ++ [n % 256]

/-- SHA-256 padding: `0x80`, zeros to 56 mod 64, then the 64-bit bit length. -/
def shaPad (msg : List ℕ) : List ℕ :=
  let z := (119 - msg.length % 64) % 64
  msg ++ [0x80] ++ List.replicate z 0 ++ beBytes (msg.length * 8) 8

/-- UTF-8 encoding of one character (Python `str.encode()`). -/
def utf8Char (c : Char) : List ℕ :=
  let n := c.toNat
  if n < 0x80 then [n]
  else if n < 0x800 then [0xC0 + n / 2 ^ 6, 0x80 + n % 2 ^ 6]
  else if n < 0x10000 then
    [0xE0 + n / 2 ^ 12, 0x80 + n / 2 ^ 6 % 2 ^ 6, 0x80 + n % 2 ^ 6]
  else
    [0xF0 + n / 2 ^ 18, 0x80 + n / 2 ^ 12 % 2 ^ 6, 0x80 + n / 2 ^ 6 % 2 ^ 6,
     0x80 + n % 2 ^ 6]

/-- UTF-8 encoding of a string (Python `s.encode()`). -/
def utf8Bytes (s : String) : List ℕ := (s.toList.map utf8Char).flatten

/-- One hash word as 8 lowercase hex digits. -/
def hexWord (w : ℕ) : String :=
  String.mk ((List.range 8).map
    (fun i => "0123456789abcdef".toList.getD (w / 16 ^ (7 - i) % 16) '0'))

/-- `hashlib.sha256(s.encode()).hexdigest()`: the 64-character hex digest. -/
def sha256hex (s : String) : String :=
  String.join ((shaBlocks shaH0 (shaPad (utf8Bytes s))).map hexWord)

/-! ## Data model -/

/-- `RateLimitStrategy` enum. -/
inductive RateLimitStrategy
  | fixed_window
  | sliding_window
  | token_bucket
  | adaptive
deriving DecidableEq, Repr

/-- `RateLimitRule` dataclass, with the source's field defaults. -/
structure RateLimitRule where
  name : String
  requests_per_minute : ℤ
  requests_per_hour : ℤ
  requests_per_day : ℤ
  burst_allowance : ℤ := 10
  strategy : RateLimitStrategy := .sliding_window
  paths : List String := []
  methods : List String := ["POST", "PUT", "DELETE"]
  user_types : List String := []
  exempted_ips : List String := []
  exempted_users : List String := []
deriving DecidableEq, Repr

/-- A value held by the Counter Store: an integer counter, or a token-bucket
record `{tokens, last_refill, max_tokens}` (floats modelled as `ℚ`). -/
inductive CacheVal
  | int (n : ℤ)
  | bucket (tokens last_refill max_tokens : ℚ)
deriving DecidableEq, Repr

/-- Modelled from the spec: the Counter Store (§4.5, `cache_manager`, whose
source is not part of the repository snapshot).  `data` is the key-value map
(all claims use the single rate-limit namespace, so the namespace argument is
dropped); `down` models a store outage in which every call raises. -/
structure Store where
  data : String → Option CacheVal
  down : Bool

/-- Modelled from the spec: `get(key, namespace) -> value | absent`; raises
when the store is down. -/
def Store.get (s : Store) (k : String) : Except Unit (Option CacheVal) :=
  if s.down then .error () else .ok (s.data k)

/-- The store with one key rebound. -/
def storeWith (s : Store) (k : String) (v : CacheVal) : Store :=
  ⟨fun k2 => if k2 = k then some v else s.data k2, s.down⟩

/-- The integer stored at a key, 0 when absent (the view taken by
`increment`). -/
def intAt (s : Store) (k : String) : ℤ :=
  match s.data k with | some (.int n) => n | _ => 0

/-- Modelled from the spec: `set(key, value, namespace, ttl)`.  TTL expiry is
outside the claims (all scenarios stay within live windows), so the `ttl`
argument is recorded in the call but does not age the map. -/
def Store.set (s : Store) (k : String) (v : CacheVal) (_ttl : ℕ) : Except Unit Store :=
  if s.down then .error () else .ok (storeWith s k v)

/-- Modelled from the spec: `increment(key, namespace, amount, ttl)` returns
the post-increment integer; an absent key counts as 0 (a non-integer value at
the key never occurs: counter and bucket key spaces are disjoint). -/
def Store.increment (s : Store) (k : String) (amount : ℤ) (_ttl : ℕ) :
    Except Unit (ℤ × Store) :=
  if s.down then .error ()
  else .ok (intAt s k + amount, storeWith s k (.int (intAt s k + amount)))

/-- The identity object on `request.state.user`: `{user_id, roles}`.  A falsy
user object (absent attribute, `None`, or empty dict) is modelled as `none` on
the request. -/
structure UserState where
  user_id : Option String
  roles : List String
deriving DecidableEq

/-- The inbound request, restricted to the fields the middleware reads.
`headers` models `request.headers.get`; `client` models
`request.client.host` (`none` when `request.client` is `None`). -/
structure Request where
  user : Option UserState
  headers : String → Option String
  path : String
  method : String
  client : Option String

/-- The per-strategy decision dict (partial keys modelled with `Option`). -/
structure Decision where
  allowed : Bool
  remaining_minute : Option ℤ := none
  remaining_hour : Option ℤ := none
  remaining_day : Option ℤ := none
  remaining_tokens : Option ℤ := none
  reset_time : Option ℚ := none
  retry_after : Option ℤ := none
  error : Bool := false
deriving DecidableEq, Repr

/-- The fail-open decision `{"allowed": True, "error": str(e)}`. -/
def errAllow : Decision := { allowed := true, error := true }

/-- The dict returned by `_check_rate_limits`. -/
structure CheckResult where
  allowed : Bool
  rule_name : Option String := none
  identifier : String := ""
  remaining_minute : Option ℤ := none
  remaining_hour : Option ℤ := none
  remaining_day : Option ℤ := none
  remaining_tokens : Option ℤ := none
  reset_time : Option ℚ := none
  retry_after : Option ℤ := none
deriving DecidableEq, Repr

/-- `self.stats`: process-local counters.  `rate_limit_hits` is the Python
dict, modelled as an insertion-ordered association list. -/
structure Stats where
  total_requests : ℤ
  blocked_requests : ℤ
  rate_limit_hits : List (String × ℤ)
  adaptive_adjustments : ℤ
deriving DecidableEq, Repr

/-- The stats dict as initialized in `__init__`. -/
def initStats : Stats := ⟨0, 0, [], 0⟩

/-- The middleware's mutable state together with the shared Counter Store. -/
structure MwState where
  rules : List RateLimitRule
  stats : Stats
  store : Store

/-! ## Middleware functions (`RateLimitMiddleware`) -/

/-- `_get_client_ip`: first entry of `X-Forwarded-For` (stripped) when the
header is truthy, else `request.client.host`, else `"unknown"`. -/
def get_client_ip (req : Request) : String :=
  let direct := req.client.getD "unknown"
  match req.headers "X-Forwarded-For" with
  | some fwd => if fwd = "" then direct else pyStrip (beforeFirstComma fwd)
  | none => direct

/-- `_get_request_identifier`: user id, else API-key hash (first 16 hex chars
of the SHA-256 hexdigest), else session id, else client IP.  The enclosing
`try` never fires: the body is total.  Total function; always yields a value. -/
def get_request_identifier (req : Request) : String :=
  let uid := req.user.bind (fun u => u.user_id)
  if strTruthy uid then "user:" ++ uid.getD ""
  else
    let api_key := req.headers "X-API-Key"
    if strTruthy api_key then "api_key:" ++ pyTake (sha256hex (api_key.getD "")) 16
    else
      let session_id := req.headers "X-Session-ID"
      if strTruthy session_id then "session:" ++ session_id.getD ""
      else "ip:" ++ get_client_ip req

/-- `_get_user_type`. -/
def get_user_type (req : Request) : String :=
  match req.user with
  | some u =>
    if u.roles.contains "admin" then "admin"
    else if u.roles.contains "api_user" then "api_user"
    else "user"
  | none => "anonymous"

/-- The per-rule applicability test inside `_get_applicable_rules`: empty
`paths` / `methods` / `user_types` match everything. -/
def ruleApplies (rule : RateLimitRule) (path method : String) (req : Request) : Bool :=
  (rule.paths.isEmpty || rule.paths.any (fun p => pyStartsWith path p)) &&
  (rule.methods.isEmpty || rule.methods.contains method) &&
  (rule.user_types.isEmpty || rule.user_types.contains (get_user_type req))

/-- `_get_applicable_rules`: the applicable subset in declared table order. -/
def get_applicable_rules (rules : List RateLimitRule) (path method : String)
    (req : Request) : List RateLimitRule :=
  rules.filter (fun rule => ruleApplies rule path method req)

/-- `_is_exempted`: client IP in `exempted_ips`, or user id in
`exempted_users`, or roles containing `admin`.  The body is total, so the
enclosing `try` never fires. -/
def is_exempted (req : Request) (rule : RateLimitRule) : Bool :=
  (rule.exempted_ips.contains (get_client_ip req)) ||
  (match req.user with
   | some u =>
     (match u.user_id with
      | some uid => rule.exempted_users.contains uid
      | none => false) ||
     u.roles.contains "admin"
   | none => false)

/-- The minute-tier counter key used by `_check_sliding_window` and
`_record_request`. -/
def minuteKey (name idf : String) (t : ℤ) : String :=
  "rate_limit:" ++ name ++ ":minute:" ++ idf ++ ":" ++ intStr (t.fdiv 60)

/-- The hour-tier counter key. -/
def hourKey (name idf : String) (t : ℤ) : String :=
  "rate_limit:" ++ name ++ ":hour:" ++ idf ++ ":" ++ intStr (t.fdiv 3600)

/-- The day-tier counter key. -/
def dayKey (name idf : String) (t : ℤ) : String :=
  "rate_limit:" ++ name ++ ":day:" ++ idf ++ ":" ++ intStr (t.fdiv 86400)

/-- The window key used by `_check_fixed_window`. -/
def fixedWindowKey (name idf : String) (t : ℤ) : String :=
  "rate_limit:" ++ name ++ ":" ++ idf ++ ":" ++ intStr (t.fdiv 60)

/-- The bucket key used by `_check_token_bucket`. -/
def bucketKey (name idf : String) : String :=
  "token_bucket:" ++ name ++ ":" ++ idf

/-- `value or 0` on a fetched counter, then use as an int.  `none` models a
`TypeError` (a bucket dict compared against an int), which the enclosing
`try` turns into fail-open; it never occurs on the keys the code uses. -/
def counterVal : Option CacheVal → Option ℤ
  | none => some 0
  | some (.int n) => some n
  | some (.bucket _ _ _) => none

/-- The bucket state `(tokens, last_refill, max_tokens)` seen by
`_check_token_bucket`: a falsy fetched value (`None`, or an impossible stored
0) is lazily replaced by a full bucket stamped `now`; a truthy non-dict value
(also impossible on bucket keys) would raise `TypeError`, modelled as
`none` and caught as fail-open by the caller. -/
def bucketFetch (v : Option CacheVal) (now : ℚ) (burst : ℤ) : Option (ℚ × ℚ × ℚ) :=
  match v with
  | some (.bucket tk lr mx) => some (tk, lr, mx)
  | some (.int n) => if n = 0 then some ((burst : ℚ), now, (burst : ℚ)) else none
  | none => some ((burst : ℚ), now, (burst : ℚ))

/-- `refill_rate = rule.requests_per_minute / 60.0` (tokens per second). -/
def tbRefill (rule : RateLimitRule) : ℚ := (rule.requests_per_minute : ℚ) / 60

/-- `new_tokens = min(max_tokens, tokens + time_passed * refill_rate)`. -/
def tbNewTokens (rule : RateLimitRule) (now tk lr mx : ℚ) : ℚ :=
  min mx (tk + (now - lr) * tbRefill rule)

/-- `_check_sliding_window`: three fixed-window tiers checked in sequence —
minute, hour, day — each read-only against its own counter; the first tier at
or above its threshold denies with that tier's `reset_time` / `retry_after`.
Any raised error (store down) is caught and becomes fail-open. -/
def check_sliding_window (store : Store) (now : ℚ) (idf : String)
    (rule : RateLimitRule) : Decision × Store :=
  let t := pyIntTrunc now
  match store.get (minuteKey rule.name idf t) with
  | .error _ => (errAllow, store)
  | .ok mv =>
    match counterVal mv with
    | none => (errAllow, store)
    | some minute_count =>
      if minute_count ≥ rule.requests_per_minute then
        ({ allowed := false, remaining_minute := some 0,
           reset_time := some ((t.fdiv 60 + 1) * 60 : ℤ),
           retry_after := some (60 - t.fmod 60) }, store)
      else
        match store.get (hourKey rule.name idf t) with
        | .error _ => (errAllow, store)
        | .ok hv =>
          match counterVal hv with
          | none => (errAllow, store)
          | some hour_count =>
            if hour_count ≥ rule.requests_per_hour then
              ({ allowed := false, remaining_hour := some 0,
                 reset_time := some ((t.fdiv 3600 + 1) * 3600 : ℤ),
                 retry_after := some (3600 - t.fmod 3600) }, store)
            else
              match store.get (dayKey rule.name idf t) with
              | .error _ => (errAllow, store)
              | .ok dv =>
                match counterVal dv with
                | none => (errAllow, store)
                | some day_count =>
                  if day_count ≥ rule.requests_per_day then
                    ({ allowed := false, remaining_day := some 0,
                       reset_time := some ((t.fdiv 86400 + 1) * 86400 : ℤ),
                       retry_after := some (86400 - t.fmod 86400) }, store)
                  else
                    ({ allowed := true,
                       remaining_minute := some (rule.requests_per_minute - minute_count),
                       remaining_hour := some (rule.requests_per_hour - hour_count),
                       remaining_day := some (rule.requests_per_day - day_count) },
                     store)

/-- `_check_token_bucket`.  A missing bucket (or a falsy stored value, which
cannot occur on bucket keys) is lazily initialized to full capacity; refill is
`per_minute / 60` tokens per second; the consumed bucket is persisted during
this check (before any separate record step).  A zero refill rate on the deny
path is Python's `ZeroDivisionError`, caught as fail-open; a truthy non-dict
value raises and is likewise fail-open. -/
def check_token_bucket (store : Store) (now : ℚ) (idf : String)
    (rule : RateLimitRule) : Decision × Store :=
  let key := bucketKey rule.name idf
  match store.get key with
  | .error _ => (errAllow, store)
  | .ok v =>
    match bucketFetch v now rule.burst_allowance with
    | none => (errAllow, store)
    | some (tokens, last_refill, max_tokens) =>
      let new_tokens := tbNewTokens rule now tokens last_refill max_tokens
      if new_tokens < 1 then
        if tbRefill rule = 0 then (errAllow, store)
        else
          let retry_after := (1 - new_tokens) / tbRefill rule
          ({ allowed := false, remaining_tokens := some (pyIntTrunc new_tokens),
             reset_time := some (now + retry_after),
             retry_after := some (pyIntTrunc retry_after) }, store)
      else
        match store.set key (.bucket (new_tokens - 1) now max_tokens) 3600 with
        | .error _ => (errAllow, store)
        | .ok store2 =>
          ({ allowed := true, remaining_tokens := some (pyIntTrunc (new_tokens - 1)) },
           store2)

/-- `_get_system_load`: `min(1.0, blocked / total * 10)`, `0.0` when no
requests have been seen. -/
def get_system_load (stats : Stats) : ℚ :=
  if stats.total_requests = 0 then 0
  else min 1 ((stats.blocked_requests : ℚ) / (stats.total_requests : ℚ) * 10)

/-- `_check_adaptive_limit`: scale the minute threshold by the system load
(×0.5 above 0.8, ×0.7 above 0.6, unchanged otherwise; `int()` truncates) and
delegate to the sliding-window check with a rule clone named
`name + "_adaptive"` carrying the adjusted minute threshold (hour and day
thresholds unchanged, every other field at its dataclass default). -/
def check_adaptive_limit (store : Store) (now : ℚ) (idf : String)
    (rule : RateLimitRule) (stats : Stats) : Decision × Store :=
  let system_load := get_system_load stats
  let adjusted_limit : ℤ :=
    if system_load > 8 / 10 then pyIntTrunc ((rule.requests_per_minute : ℚ) * (5 / 10))
    else if system_load > 6 / 10 then pyIntTrunc ((rule.requests_per_minute : ℚ) * (7 / 10))
    else rule.requests_per_minute
  let adjusted_rule : RateLimitRule :=
    { name := rule.name ++ "_adaptive",
      requests_per_minute := adjusted_limit,
      requests_per_hour := rule.requests_per_hour,
      requests_per_day := rule.requests_per_day }
  check_sliding_window store now idf adjusted_rule

/-- `_check_fixed_window`: atomically increment the window counter (this
happens during the check itself), deny when the post-increment count exceeds
`requests_per_minute`. -/
def check_fixed_window (store : Store) (now : ℚ) (idf : String)
    (rule : RateLimitRule) : Decision × Store :=
  let t := pyIntTrunc now
  match store.increment (fixedWindowKey rule.name idf t) 1 60 with
  | .error _ => (errAllow, store)
  | .ok (count, store2) =>
    if count > rule.requests_per_minute then
      ({ allowed := false, remaining_minute := some 0,
         reset_time := some ((t.fdiv 60 + 1) * 60 : ℤ),
         retry_after := some (60 - t.fmod 60) }, store2)
    else
      ({ allowed := true, remaining_minute := some (rule.requests_per_minute - count) },
       store2)

/-- `_check_rule_limit`: dispatch on the rule's strategy (the `else` branch of
the source catches `FIXED_WINDOW`). -/
def check_rule_limit (store : Store) (idf : String) (rule : RateLimitRule)
    (stats : Stats) (now : ℚ) : Decision × Store :=
  match rule.strategy with
  | .sliding_window => check_sliding_window store now idf rule
  | .token_bucket => check_token_bucket store now idf rule
  | .adaptive => check_adaptive_limit store now idf rule stats
  | .fixed_window => check_fixed_window store now idf rule

/-- The deny dict built by `_check_rate_limits` from the first denying rule:
its name, the strategy decision's remaining / reset_time / retry_after. -/
def denyResult (idf : String) (rule : RateLimitRule) (d : Decision) : CheckResult :=
  { allowed := false, rule_name := some rule.name, identifier := idf,
    remaining_minute := d.remaining_minute, remaining_hour := d.remaining_hour,
    remaining_day := d.remaining_day, remaining_tokens := d.remaining_tokens,
    reset_time := d.reset_time, retry_after := d.retry_after }

/-- The all-rules-passed dict built by `_check_rate_limits`. -/
def allowResult (idf : String) : CheckResult :=
  { allowed := true, identifier := idf }

/-- The rule loop of `_check_rate_limits`: exempted rules are skipped
(`continue`), the first denying rule returns immediately, later rules are not
evaluated.  The store is threaded because a fixed-window evaluation itself
mutates it. -/
def check_rules_loop (store : Store) (req : Request) (idf : String)
    (stats : Stats) (now : ℚ) : List RateLimitRule → CheckResult × Store
  | [] => (allowResult idf, store)
  | rule :: rest =>
    if is_exempted req rule then check_rules_loop store req idf stats now rest
    else
      let p := check_rule_limit store idf rule stats now
      if p.1.allowed then check_rules_loop p.2 req idf stats now rest
      else (denyResult idf rule p.1, p.2)

/-- `_check_rate_limits`: resolve the identifier, select applicable rules, run
the rule loop.  The enclosing `try` is unreachable (every callee catches its
own errors), so the error dict without an identifier is never produced. -/
def check_rate_limits (store : Store) (req : Request) (rules : List RateLimitRule)
    (stats : Stats) (now : ℚ) : CheckResult × Store :=
  let idf := get_request_identifier req
  check_rules_loop store req idf stats now
    (get_applicable_rules rules req.path req.method req)

/-- The rule loop of `_record_request`: for every applicable rule (exemption
is not re-checked), increment the minute, hour and day counters.  A raised
store error aborts the remaining increments (the whole loop sits in one
`try`), keeping whatever was already written. -/
def record_loop (store : Store) (idf : String) (t : ℤ) :
    List RateLimitRule → Store
  | [] => store
  | rule :: rest =>
    match store.increment (minuteKey rule.name idf t) 1 60 with
    | .error _ => store
    | .ok (_, s1) =>
      match s1.increment (hourKey rule.name idf t) 1 3600 with
      | .error _ => s1
      | .ok (_, s2) =>
        match s2.increment (dayKey rule.name idf t) 1 86400 with
        | .error _ => s2
        | .ok (_, s3) => record_loop s3 idf t rest

/-- `_record_request`. -/
def record_request (store : Store) (req : Request) (rules : List RateLimitRule)
    (idf : String) (now : ℚ) : Store :=
  record_loop store idf (pyIntTrunc now)
    (get_applicable_rules rules req.path req.method req)

/-- Python dict update performed on a block:
`if name not in hits: hits[name] = 0` then `hits[name] += 1`. -/
def hitsIncr (hits : List (String × ℤ)) (name : String) : List (String × ℤ) :=
  if hits.any (fun p => p.1 = name) then
    hits.map (fun p => if p.1 = name then (p.1, p.2 + 1) else p)
  else hits ++ [(name, 1)]

/-- The outcome of one `dispatch`: whether the request reached the downstream
handler (`allowed = true`) or got the 429 response, plus the check dict the
response / headers were built from. -/
structure DispatchOutcome where
  allowed : Bool
  result : CheckResult
deriving DecidableEq, Repr

/-- `dispatch`: count the request, check the limits, either return the 429
(counting the block and the per-rule hit) or record the request and forward
it.  Within one dispatch the clock is read as a single `now` (the model runs
no real time between the internal `time.time()` calls, so
`_adaptive_adjustment`'s 5-second branch never fires and the `stats` field it
would touch stays put). -/
def dispatch (st : MwState) (req : Request) (now : ℚ) : DispatchOutcome × MwState :=
  let stats1 := { st.stats with total_requests := st.stats.total_requests + 1 }
  let p := check_rate_limits st.store req st.rules stats1 now
  if p.1.allowed then
    let store2 := record_request p.2 req st.rules p.1.identifier now
    (⟨true, p.1⟩, ⟨st.rules, stats1, store2⟩)
  else
    let stats2 := { stats1 with
      blocked_requests := stats1.blocked_requests + 1,
      rate_limit_hits := hitsIncr stats1.rate_limit_hits (p.1.rule_name.getD "") }
    (⟨false, p.1⟩, ⟨st.rules, stats2, p.2⟩)

/-- Run a sequence of requests (each with its own clock reading). -/
def run_dispatches (st : MwState) : List (Request × ℚ) → MwState
  | [] => st
  | (req, now) :: rest => run_dispatches (dispatch st req now).2 rest

/-- The derived fields of `get_stats`. -/
structure StatsReport where
  success_rate : ℚ
  block_rate : ℚ
deriving DecidableEq, Repr

/-- `get_stats`: `success_rate = (total - blocked) / total` (1.0 when no
requests yet) and `block_rate = 1 - success_rate`. -/
def get_stats (stats : Stats) : StatsReport :=
  let success_rate : ℚ :=
    if stats.total_requests > 0 then
      ((stats.total_requests - stats.blocked_requests : ℤ) : ℚ) /
        (stats.total_requests : ℚ)
    else 1
  ⟨success_rate, 1 - success_rate⟩

/-! ## Spec-side definitions (for refinement comparisons) -/

/-- Spec-side description of the layered fixed-window ("sliding") strategy
(§4.4 of the spec): minute, hour and day tiers checked in that order on the
already-fetched counts, the first tier at or above its threshold denying with
that tier's seconds-to-boundary `retry_after` and next-boundary `reset_time`. -/
def layeredWindowSpec (rule : RateLimitRule) (t : ℤ) (mc hc dc : ℤ) : Decision :=
  if mc ≥ rule.requests_per_minute then
    { allowed := false, remaining_minute := some 0,
      reset_time := some ((t.fdiv 60 + 1) * 60 : ℤ),
      retry_after := some (60 - t.fmod 60) }
  else if hc ≥ rule.requests_per_hour then
    { allowed := false, remaining_hour := some 0,
      reset_time := some ((t.fdiv 3600 + 1) * 3600 : ℤ),
      retry_after := some (3600 - t.fmod 3600) }
  else if dc ≥ rule.requests_per_day then
    { allowed := false, remaining_day := some 0,
      reset_time := some ((t.fdiv 86400 + 1) * 86400 : ℤ),
      retry_after := some (86400 - t.fmod 86400) }
  else
    { allowed := true,
      remaining_minute := some (rule.requests_per_minute - mc),
      remaining_hour := some (rule.requests_per_hour - hc),
      remaining_day := some (rule.requests_per_day - dc) }

/-- The total of the per-rule hit counters in `rate_limit_hits`. -/
def sum_hits (l : List (String × ℤ)) : ℤ := (l.map Prod.snd).sum

/-- The stats invariant of the claim: the block counter equals the total of
the per-rule hit counters, never exceeds the request counter, is
non-negative, and the hit dict has no duplicate keys. -/
def statsInv (s : Stats) : Prop :=
  s.blocked_requests = sum_hits s.rate_limit_hits ∧
  s.blocked_requests ≤ s.total_requests ∧
  0 ≤ s.blocked_requests ∧
  (s.rate_limit_hits.map Prod.fst).Nodup

/-! ## Concrete fixtures used by witnesses and counterexamples -/

/-- A store with no keys, reachable. -/
def emptyStore : Store := ⟨fun _ => none, false⟩

/-- A store in total outage: every call raises. -/
def downStore : Store := ⟨fun _ => none, true⟩

/-- Repeated fixed-window checks for one identifier at one instant. -/
def fixed_seq (store : Store) (now : ℚ) (idf : String) (rule : RateLimitRule) :
    ℕ → Store
  | 0 => store
  | n + 1 => (check_fixed_window (fixed_seq store now idf rule n) now idf rule).2

/-- Repeated token-bucket checks for one identifier at one instant. -/
def bucket_seq (store : Store) (now : ℚ) (idf : String) (rule : RateLimitRule) :
    ℕ → Store
  | 0 => store
  | n + 1 => (check_token_bucket (bucket_seq store now idf rule n) now idf rule).2

/-- A fixed-window rule with the spec scenario's 60-per-minute threshold. -/
def fwRule : RateLimitRule :=
  { name := "general", requests_per_minute := 60, requests_per_hour := 1000,
    requests_per_day := 10000, strategy := .fixed_window, paths := ["/api/"] }

/-- The token-bucket rule of the spec scenario: capacity 5, 30 per minute. -/
def tbRule : RateLimitRule :=
  { name := "chat", requests_per_minute := 30, requests_per_hour := 500,
    requests_per_day := 2000, burst_allowance := 5, strategy := .token_bucket,
    paths := ["/api/v1/chat/"] }

/-- A token-bucket rule whose refill rate (1/3 per second) exposes the
truncation of `retry_after`. -/
def tbRuleThird : RateLimitRule :=
  { name := "tools", requests_per_minute := 20, requests_per_hour := 100,
    requests_per_day := 500, burst_allowance := 5, strategy := .token_bucket }

/-- A sliding-window rule that exempts the user id `alice`. -/
def exRule : RateLimitRule :=
  { name := "r1", requests_per_minute := 60, requests_per_hour := 1000,
    requests_per_day := 10000, paths := ["/api/"], exempted_users := ["alice"] }

/-- An anonymous request from a fixed client address. -/
def reqIp : Request := ⟨none, fun _ => none, "/api/x", "POST", some "1.1.1.1"⟩

/-- A request authenticated as the exempted user `alice`. -/
def reqAlice : Request :=
  ⟨some ⟨some "alice", []⟩, fun _ => none, "/api/x", "POST", some "1.1.1.1"⟩

/-- A request carrying only an API key. -/
def reqApiKey : Request :=
  ⟨none, fun h => if h = "X-API-Key" then some "secret" else none, "/api/x",
   "POST", some "2.2.2.2"⟩

/-- A request carrying only a session id. -/
def reqSession : Request :=
  ⟨none, fun h => if h = "X-Session-ID" then some "sess-9" else none, "/api/x",
   "POST", some "2.2.2.2"⟩

/-- Middleware state: the exempting rule over an empty store and fresh stats. -/
def exState : MwState := ⟨[exRule], initStats, emptyStore⟩

/-- The adaptive rule of the spec scenario: base 100 per minute. -/
def adRule : RateLimitRule :=
  { name := "api", requests_per_minute := 100, requests_per_hour := 100000,
    requests_per_day := 1000000, strategy := .adaptive, paths := ["/api/"] }

/-- Stats forcing the system load to its cap: every past request blocked. -/
def adStats : Stats := ⟨1000, 1000, [], 0⟩

/-- Middleware state for the adaptive scenario. -/
def adState : MwState := ⟨[adRule], adStats, emptyStore⟩

/-- The adaptive scenario: `n` sequential requests inside one minute window. -/
def adRun : ℕ → MwState
  | 0 => adState
  | n + 1 => (dispatch (adRun n) reqIp 1000).2

/-- The three counter keys the adaptive clone of `adRule` reads at `t = 1000`. -/
def adReadKeys : List String :=
  [minuteKey "api_adaptive" "ip:1.1.1.1" 1000,
   hourKey "api_adaptive" "ip:1.1.1.1" 1000,
   dayKey "api_adaptive" "ip:1.1.1.1" 1000]

/-- Two sliding-window rules on one path: `looseRule` declared first. -/
def looseRule : RateLimitRule :=
  { name := "loose", requests_per_minute := 100, requests_per_hour := 1000,
    requests_per_day := 10000, paths := ["/api/"] }

/-- The stricter rule declared second. -/
def strictRule : RateLimitRule :=
  { name := "strict", requests_per_minute := 2, requests_per_hour := 1000,
    requests_per_day := 10000, paths := ["/api/"] }

/-- A third rule that must never be consulted once `strictRule` denies. -/
def tailRule : RateLimitRule :=
  { name := "tail", requests_per_minute := 1, requests_per_hour := 1,
    requests_per_day := 1, paths := ["/api/"] }

/-- A store holding `strictRule`'s minute counter at its threshold. -/
def strictStore : Store :=
  ⟨fun k => if k = minuteKey "strict" "ip:1.1.1.1" 1000 then some (.int 2) else none,
   false⟩

/-- A store holding `strictRule`'s minute counter for `user:alice` at its
threshold. -/
def strictAliceStore : Store :=
  ⟨fun k => if k = minuteKey "strict" "user:alice" 1000 then some (.int 2) else none,
   false⟩

/-- A store holding an hour-tier counter of `exRule` at its threshold. -/
def hourStore : Store :=
  ⟨fun k => if k = hourKey "r1" "ip:1.1.1.1" 1000 then some (.int 1000) else none,
   false⟩

/-- A bucket holding half a token, refill rate 1/3 per second. -/
def halfTokenStore : Store :=
  ⟨fun k => if k = bucketKey "tools" "ip:1.1.1.1" then
      some (.bucket (1 / 2) 1000 5) else none,
   false⟩

/-! ## Helper lemmas -/

/-- The sliding-window check never writes to the Counter Store. -/
theorem check_sliding_window_frame (store : Store) (now : ℚ) (idf : String)
    (rule : RateLimitRule) : (check_sliding_window store now idf rule).2 = store := by
  unfold check_sliding_window
  dsimp only
  repeat' split
  all_goals rfl

/-- The adaptive check never writes to the Counter Store. -/
theorem check_adaptive_limit_frame (store : Store) (now : ℚ) (idf : String)
    (rule : RateLimitRule) (stats : Stats) :
    (check_adaptive_limit store now idf rule stats).2 = store :=
  check_sliding_window_frame ..

/-- Rules that are all exempted are skipped entirely by the check loop: the
result is the pass-through dict and the store is untouched. -/
theorem check_rules_loop_all_exempt (req : Request) (idf : String) (stats : Stats)
    (now : ℚ) : ∀ (rs : List RateLimitRule) (store : Store),
    (∀ r ∈ rs, is_exempted req r = true) →
    check_rules_loop store req idf stats now rs = (allowResult idf, store) := by
  intro rs
  induction rs with
  | nil => intro store _; rfl
  | cons r rest ih =>
    intro store h
    have hr : is_exempted req r = true := h r (List.mem_cons_self r rest)
    simp only [check_rules_loop, hr, if_true]
    exact ih store (fun r' hr' => h r' (List.mem_cons_of_mem r hr'))

/-- On a downed store every strategy check fails open with the store
untouched. -/
theorem check_rule_limit_down (store : Store) (idf : String) (rule : RateLimitRule)
    (stats : Stats) (now : ℚ) (h : store.down = true) :
    check_rule_limit store idf rule stats now = (errAllow, store) := by
  unfold check_rule_limit
  cases rule.strategy with
  | sliding_window => simp [check_sliding_window, Store.get, h]
  | token_bucket => simp [check_token_bucket, Store.get, h]
  | adaptive => simp [check_adaptive_limit, check_sliding_window, Store.get, h]
  | fixed_window => simp [check_fixed_window, Store.increment, h]

/-- On a downed store the whole rule loop passes the request through and the
store is untouched. -/
theorem check_rules_loop_down (req : Request) (idf : String) (stats : Stats)
    (now : ℚ) : ∀ (rs : List RateLimitRule) (store : Store), store.down = true →
    check_rules_loop store req idf stats now rs = (allowResult idf, store) := by
  intro rs
  induction rs with
  | nil => intro store _; rfl
  | cons r rest ih =>
    intro store h
    by_cases he : is_exempted req r
    · simp only [check_rules_loop, he, if_true]
      exact ih store h
    · simp only [check_rules_loop, he, if_false,
        check_rule_limit_down store idf r stats now h]
      exact ih store h

/-- On a downed store the record loop writes nothing. -/
theorem record_loop_down (idf : String) (t : ℤ) :
    ∀ (rs : List RateLimitRule) (store : Store), store.down = true →
    record_loop store idf t rs = store := by
  intro rs
  induction rs with
  | nil => intro store _; rfl
  | cons r rest _ =>
    intro store h
    simp [record_loop, Store.increment, h]

/-- **C9** — *fail-open*: on a total Counter Store outage (every store call
raising), `dispatch` admits the request, mutates no store state, and counts
no denial; the error is handled internally (the model returns a value, never
an exception).  The store ops are spec-modelled (§4.5). -/
theorem c9_fail_open (st : MwState) (req : Request) (now : ℚ)
    (h : st.store.down = true) :
    (dispatch st req now).1.allowed = true ∧
    (dispatch st req now).2.store = st.store ∧
    (dispatch st req now).2.stats.blocked_requests = st.stats.blocked_requests ∧
    (dispatch st req now).2.store.down = true := by
  have hc : check_rate_limits st.store req st.rules
      { st.stats with total_requests := st.stats.total_requests + 1 } now =
      (allowResult (get_request_identifier req), st.store) := by
    unfold check_rate_limits
    exact check_rules_loop_down req _ _ now _ st.store h
  have hr : record_request st.store req st.rules
      (allowResult (get_request_identifier req)).identifier now = st.store := by
    unfold record_request
    exact record_loop_down _ _ _ st.store h
  have hd : dispatch st req now =
      (⟨true, allowResult (get_request_identifier req)⟩,
       ⟨st.rules, { st.stats with total_requests := st.stats.total_requests + 1 },
        st.store⟩) := by
    unfold dispatch
    dsimp only
    rw [hc, hr]
    rfl
  rw [hd]
  exact ⟨rfl, rfl, rfl, h⟩

/-- Witness for C9: a concrete request against a downed store is admitted. -/
theorem c9_fail_open_witness :
    (MwState.mk [exRule] initStats downStore).store.down = true ∧
    (dispatch ⟨[exRule], initStats, downStore⟩ reqIp 1000).1.allowed = true ∧
    (dispatch ⟨[exRule], initStats, downStore⟩ reqIp 1000).2.stats.blocked_requests =
      initStats.blocked_requests :=
  ⟨rfl, (c9_fail_open ⟨[exRule], initStats, downStore⟩ reqIp 1000 rfl).1,
   (c9_fail_open ⟨[exRule], initStats, downStore⟩ reqIp 1000 rfl).2.2.1⟩

/-- Counterexample to C1 as stated: `alice` is exempted from `exRule`, yet
dispatching her request mutates that very rule's minute counter in the
Counter Store (`_record_request` iterates all applicable rules without
re-checking exemption). -/
theorem c1_counterexample :
    is_exempted reqAlice exRule = true ∧
    exState.store.data (minuteKey "r1" "user:alice" 1000) = none ∧
    (dispatch exState reqAlice 1000).2.store.data (minuteKey "r1" "user:alice" 1000) =
      some (.int 1) := by decide

/-- **C2** (amended) — the sliding-window and adaptive evaluations never
write to the Counter Store, and the record step runs only on allowed
requests; but the fixed-window evaluation increments its window counter
itself and the token-bucket evaluation persists the consumed bucket itself
(the counterexample exhibits the former), so "evaluate" is not read-only for
those two strategies.  Store ops spec-modelled (§4.5). -/
theorem c2_evaluate_frame (store : Store) (now : ℚ) (idf : String)
    (rule : RateLimitRule) (stats : Stats) (st : MwState) (req : Request) (now2 : ℚ) :
    (check_sliding_window store now idf rule).2 = store ∧
    (check_adaptive_limit store now idf rule stats).2 = store ∧
    ((dispatch st req now2).1.allowed = false →
      (dispatch st req now2).2.store =
        (check_rate_limits st.store req st.rules
          { st.stats with total_requests := st.stats.total_requests + 1 } now2).2) := by
  refine ⟨check_sliding_window_frame store now idf rule,
    check_adaptive_limit_frame store now idf rule stats, ?_⟩
  intro hdeny
  unfold dispatch at *
  dsimp only at *
  by_cases hc : (check_rate_limits st.store req st.rules
      { st.stats with total_requests := st.stats.total_requests + 1 } now2).1.allowed
  · rw [if_pos hc] at hdeny
    exact absurd hdeny (by simp)
  · rw [if_neg hc]

/-- Witness for C2: a concrete denied dispatch (the sliding minute counter of
`strictRule` is at its threshold), for which the middleware skips the record
step and hands back exactly the check-phase store. -/
theorem c2_evaluate_frame_witness :
    (dispatch ⟨[strictRule], initStats, strictStore⟩ reqIp 1000).1.allowed = false ∧
    (dispatch ⟨[strictRule], initStats, strictStore⟩ reqIp 1000).2.store =
      (check_rate_limits strictStore reqIp [strictRule]
        { initStats with total_requests := initStats.total_requests + 1 } 1000).2 :=
  ⟨by decide,
   (c2_evaluate_frame emptyStore 0 "" strictRule initStats
      ⟨[strictRule], initStats, strictStore⟩ reqIp 1000).2.2 (by decide)⟩

/-- Counterexample to C2 as stated: the fixed-window *evaluate* itself
mutates the Counter Store (it performs the increment during the check). -/
theorem c2_counterexample :
    emptyStore.data (fixedWindowKey "general" "ip:1.1.1.1" 1000) = none ∧
    (check_fixed_window emptyStore 1000 "ip:1.1.1.1" fwRule).2.data
      (fixedWindowKey "general" "ip:1.1.1.1" 1000) = some (.int 1) := by decide

/-- Closed form of the fixed-window check on a reachable store: it increments
the window counter and compares the post-increment count to the minute
threshold. -/
theorem check_fixed_window_eq (store : Store) (now : ℚ) (idf : String)
    (rule : RateLimitRule) (hd : store.down = false) :
    check_fixed_window store now idf rule =
      (if intAt store (fixedWindowKey rule.name idf (pyIntTrunc now)) + 1 >
          rule.requests_per_minute then
        ({ allowed := false, remaining_minute := some 0,
           reset_time := some (((pyIntTrunc now).fdiv 60 + 1) * 60 : ℤ),
           retry_after := some (60 - (pyIntTrunc now).fmod 60) },
         storeWith store (fixedWindowKey rule.name idf (pyIntTrunc now))
           (.int (intAt store (fixedWindowKey rule.name idf (pyIntTrunc now)) + 1)))
      else
        ({ allowed := true,
           remaining_minute := some (rule.requests_per_minute -
             (intAt store (fixedWindowKey rule.name idf (pyIntTrunc now)) + 1)) },
         storeWith store (fixedWindowKey rule.name idf (pyIntTrunc now))
           (.int (intAt store (fixedWindowKey rule.name idf (pyIntTrunc now)) + 1)))) := by
  unfold check_fixed_window Store.increment
  rw [hd]
  rfl

/-- Rebinding a key to an integer fixes the integer read back from it. -/
theorem intAt_storeWith_int (s : Store) (k : String) (m : ℤ) :
    intAt (storeWith s k (.int m)) k = m := by
  unfold intAt storeWith
  simp

/-- Along a run of fixed-window checks in one window the store stays
reachable and the window counter counts the checks performed so far. -/
theorem fixed_seq_spec (store : Store) (now : ℚ) (idf : String)
    (rule : RateLimitRule) (hd : store.down = false)
    (h0 : store.data (fixedWindowKey rule.name idf (pyIntTrunc now)) = none) :
    ∀ n : ℕ, (fixed_seq store now idf rule n).down = false ∧
      intAt (fixed_seq store now idf rule n)
        (fixedWindowKey rule.name idf (pyIntTrunc now)) = (n : ℤ) := by
  intro n
  induction n with
  | zero => exact ⟨hd, by unfold fixed_seq intAt; rw [h0]; rfl⟩
  | succ n ih =>
    have step : fixed_seq store now idf rule (n + 1) =
        (check_fixed_window (fixed_seq store now idf rule n) now idf rule).2 := rfl
    rw [step, check_fixed_window_eq _ _ _ _ ih.1]
    constructor
    · split <;> exact ih.1
    · split <;>
      · show intAt (storeWith _ _ _) _ = _
        rw [intAt_storeWith_int, ih.2]
        push_cast
        ring

/-- **C4** — fixed-window semantics: (a) the check denies exactly when the
window counter before the request, plus one, exceeds `requests_per_minute`;
(b) a denial reports `retry_after` as the seconds remaining to the next
minute boundary and `reset_time` as that boundary; (c) starting from a window
with no counter, the first `requests_per_minute` checks in that window all
pass and every later check in it is denied.  With `requests_per_minute = 60`
this is the spec's 60-pass / 61st-denied scenario.  Store ops spec-modelled
(§4.5). -/
theorem c4_fixed_window (store : Store) (now : ℚ) (idf : String)
    (rule : RateLimitRule) (hd : store.down = false) :
    ((check_fixed_window store now idf rule).1.allowed = false ↔
      intAt store (fixedWindowKey rule.name idf (pyIntTrunc now)) + 1 >
        rule.requests_per_minute) ∧
    ((check_fixed_window store now idf rule).1.allowed = false →
      (check_fixed_window store now idf rule).1.retry_after =
        some (60 - (pyIntTrunc now).fmod 60) ∧
      (check_fixed_window store now idf rule).1.reset_time =
        some ((((pyIntTrunc now).fdiv 60 + 1) * 60 : ℤ) : ℚ)) ∧
    (store.data (fixedWindowKey rule.name idf (pyIntTrunc now)) = none →
      (∀ n : ℕ, (n : ℤ) < rule.requests_per_minute →
        (check_fixed_window (fixed_seq store now idf rule n) now idf rule).1.allowed
          = true) ∧
      (∀ n : ℕ, rule.requests_per_minute ≤ (n : ℤ) →
        (check_fixed_window (fixed_seq store now idf rule n) now idf rule).1.allowed
          = false)) := by
  refine ⟨?_, ?_, ?_⟩
  · rw [check_fixed_window_eq store now idf rule hd]
    constructor
    · intro h
      by_contra hc
      rw [if_neg hc] at h
      exact absurd h (by simp)
    · intro h
      rw [if_pos h]
  · intro h
    rw [check_fixed_window_eq store now idf rule hd] at *
    by_cases hc : intAt store (fixedWindowKey rule.name idf (pyIntTrunc now)) + 1 >
        rule.requests_per_minute
    · rw [if_pos hc]
      exact ⟨rfl, rfl⟩
    · rw [if_neg hc] at h
      exact absurd h (by simp)
  · intro h0
    constructor
    · intro n hn
      have hs := fixed_seq_spec store now idf rule hd h0 n
      rw [check_fixed_window_eq _ _ _ _ hs.1, hs.2, if_neg (by omega)]
    · intro n hn
      have hs := fixed_seq_spec store now idf rule hd h0 n
      rw [check_fixed_window_eq _ _ _ _ hs.1, hs.2, if_pos (by omega)]

/-- Witness for C4: from an empty store at `now = 1000` with the 60-per-minute
fixed-window rule, the 60th check passes, the 61st is denied, and the denial
reports 20 seconds (`60 - 1000 mod 60`) to the boundary at 1020. -/
theorem c4_fixed_window_witness :
    emptyStore.down = false ∧
    emptyStore.data (fixedWindowKey "general" "ip:1.1.1.1" 1000) = none ∧
    (check_fixed_window (fixed_seq emptyStore 1000 "ip:1.1.1.1" fwRule 59) 1000
      "ip:1.1.1.1" fwRule).1.allowed = true ∧
    (check_fixed_window (fixed_seq emptyStore 1000 "ip:1.1.1.1" fwRule 60) 1000
      "ip:1.1.1.1" fwRule).1.allowed = false ∧
    (check_fixed_window (fixed_seq emptyStore 1000 "ip:1.1.1.1" fwRule 60) 1000
      "ip:1.1.1.1" fwRule).1.retry_after = some 20 ∧
    (check_fixed_window (fixed_seq emptyStore 1000 "ip:1.1.1.1" fwRule 60) 1000
      "ip:1.1.1.1" fwRule).1.reset_time = some 1020 := by
  have h := c4_fixed_window emptyStore 1000 "ip:1.1.1.1" fwRule rfl
  have hseq := (h.2.2 rfl)
  have hallow := hseq.1 59 (by decide)
  have hdeny := hseq.2 60 (by decide)
  have h60 := c4_fixed_window (fixed_seq emptyStore 1000 "ip:1.1.1.1" fwRule 60) 1000
    "ip:1.1.1.1" fwRule ((fixed_seq_spec emptyStore 1000 "ip:1.1.1.1" fwRule rfl rfl 60).1)
  have hrep := h60.2.1 hdeny
  refine ⟨rfl, rfl, hallow, hdeny, ?_, ?_⟩
  · rw [hrep.1]; decide
  · rw [hrep.2]
    norm_num [pyIntTrunc, Int.fdiv]

/-- The sliding-window evaluation equals the spec's layered cascade on the
fetched counter values, with the store unchanged. -/
theorem check_sliding_window_eq (store : Store) (now : ℚ) (idf : String)
    (rule : RateLimitRule) (mc hc dc : ℤ) (hd : store.down = false)
    (hm : counterVal (store.data (minuteKey rule.name idf (pyIntTrunc now))) = some mc)
    (hh : counterVal (store.data (hourKey rule.name idf (pyIntTrunc now))) = some hc)
    (hdy : counterVal (store.data (dayKey rule.name idf (pyIntTrunc now))) = some dc) :
    check_sliding_window store now idf rule =
      (layeredWindowSpec rule (pyIntTrunc now) mc hc dc, store) := by
  have hget : ∀ k : String, store.get k = .ok (store.data k) := by
    intro k; unfold Store.get; rw [hd]; rfl
  unfold check_sliding_window layeredWindowSpec
  simp only [hget]
  rw [hm]
  dsimp only
  by_cases h1 : mc ≥ rule.requests_per_minute
  · rw [if_pos h1, if_pos h1]
  · rw [if_neg h1, if_neg h1, hh]
    dsimp only
    by_cases h2 : hc ≥ rule.requests_per_hour
    · rw [if_pos h2, if_pos h2]
    · rw [if_neg h2, if_neg h2, hdy]
      dsimp only
      by_cases h3 : dc ≥ rule.requests_per_day
      · rw [if_pos h3, if_pos h3]
      · rw [if_neg h3, if_neg h3]

/-- **C7** — the "sliding" (layered fixed-window) evaluation checks the
minute, hour and day tiers in exactly that order against their own counters
and thresholds; the first tier at or above its threshold denies with that
tier's seconds-to-boundary `retry_after` and next-boundary `reset_time`
(`layeredWindowSpec` states the spec's cascade), and the store is returned
unchanged.  Store ops spec-modelled (§4.5). -/
theorem c7_layered_window (store : Store) (now : ℚ) (idf : String)
    (rule : RateLimitRule) (mc hc dc : ℤ) (hd : store.down = false)
    (hm : counterVal (store.data (minuteKey rule.name idf (pyIntTrunc now))) = some mc)
    (hh : counterVal (store.data (hourKey rule.name idf (pyIntTrunc now))) = some hc)
    (hdy : counterVal (store.data (dayKey rule.name idf (pyIntTrunc now))) = some dc) :
    check_sliding_window store now idf rule =
      (layeredWindowSpec rule (pyIntTrunc now) mc hc dc, store) :=
  check_sliding_window_eq store now idf rule mc hc dc hd hm hh hdy

/-- Witness for C7: with the minute tier clear and the hour counter of
`exRule` at its threshold 1000, the evaluation denies at the hour tier with
`retry_after = 3600 - 1000 = 2600` and `reset_time = 3600`. -/
theorem c7_layered_window_witness :
    hourStore.down = false ∧
    counterVal (hourStore.data (minuteKey "r1" "ip:1.1.1.1" 1000)) = some 0 ∧
    counterVal (hourStore.data (hourKey "r1" "ip:1.1.1.1" 1000)) = some 1000 ∧
    counterVal (hourStore.data (dayKey "r1" "ip:1.1.1.1" 1000)) = some 0 ∧
    (check_sliding_window hourStore 1000 "ip:1.1.1.1" exRule).1 =
      layeredWindowSpec exRule 1000 0 1000 0 ∧
    (layeredWindowSpec exRule 1000 0 1000 0).allowed = false ∧
    (layeredWindowSpec exRule 1000 0 1000 0).retry_after = some 2600 ∧
    (layeredWindowSpec exRule 1000 0 1000 0).reset_time = some 3600 := by
  have h := c7_layered_window hourStore 1000 "ip:1.1.1.1" exRule 0 1000 0 rfl
    (by decide) (by decide) (by decide)
  exact ⟨rfl, by decide, by decide, by decide, by rw [h]; decide, by decide, by decide,
    by decide⟩

set_option maxRecDepth 8000 in
/-- **C5** (amended) — token-bucket semantics: an unseen bucket starts at
full capacity `burst_allowance`; `new_tokens` follows the min/refill formula;
the request is denied iff `new_tokens < 1`, and on allow the bucket is
persisted as `tokens = new_tokens - 1, last_refill = now`.  The *reported*
`retry_after` is `int((1 - new_tokens) / refill_rate)` — the integer
truncation of the claim's exact value (see the counterexample) — while the
exact value enters `reset_time = now + retry_after` untruncated.  The
capacity-5, 30-per-minute scenario holds: 5 immediate passes, the 6th denied
with `retry_after = 2`, exactly one extra pass 2 seconds later.  Store ops
spec-modelled (§4.5). -/
theorem c5_token_bucket (store : Store) (now : ℚ) (idf : String)
    (rule : RateLimitRule) (tk lr mx : ℚ) (hd : store.down = false)
    (hb : bucketFetch (store.data (bucketKey rule.name idf)) now
      rule.burst_allowance = some (tk, lr, mx))
    (hrate : rule.requests_per_minute ≠ 0) :
    (tbNewTokens rule now tk lr mx < 1 →
      check_token_bucket store now idf rule =
        ({ allowed := false,
           remaining_tokens := some (pyIntTrunc (tbNewTokens rule now tk lr mx)),
           reset_time := some (now + (1 - tbNewTokens rule now tk lr mx) / tbRefill rule),
           retry_after := some (pyIntTrunc ((1 - tbNewTokens rule now tk lr mx) /
             tbRefill rule)) }, store)) ∧
    (1 ≤ tbNewTokens rule now tk lr mx →
      check_token_bucket store now idf rule =
        ({ allowed := true,
           remaining_tokens := some (pyIntTrunc (tbNewTokens rule now tk lr mx - 1)) },
         storeWith store (bucketKey rule.name idf)
           (.bucket (tbNewTokens rule now tk lr mx - 1) now mx))) ∧
    ((check_token_bucket (bucket_seq emptyStore 1000 "ip:1.1.1.1" tbRule 4) 1000
        "ip:1.1.1.1" tbRule).1.allowed = true ∧
     (check_token_bucket (bucket_seq emptyStore 1000 "ip:1.1.1.1" tbRule 5) 1000
        "ip:1.1.1.1" tbRule).1.allowed = false ∧
     (check_token_bucket (bucket_seq emptyStore 1000 "ip:1.1.1.1" tbRule 5) 1000
        "ip:1.1.1.1" tbRule).1.retry_after = some 2 ∧
     (check_token_bucket (bucket_seq emptyStore 1000 "ip:1.1.1.1" tbRule 5) 1002
        "ip:1.1.1.1" tbRule).1.allowed = true ∧
     (check_token_bucket (check_token_bucket
        (bucket_seq emptyStore 1000 "ip:1.1.1.1" tbRule 5) 1002 "ip:1.1.1.1"
          tbRule).2 1002 "ip:1.1.1.1" tbRule).1.allowed = false) := by
  have hget : store.get (bucketKey rule.name idf) =
      .ok (store.data (bucketKey rule.name idf)) := by
    unfold Store.get; rw [hd]; rfl
  have hne : tbRefill rule ≠ 0 := by
    unfold tbRefill
    intro hzero
    rcases div_eq_zero_iff.mp hzero with hz | hz
    · exact hrate (by exact_mod_cast hz)
    · norm_num at hz
  refine ⟨?_, ?_, by with_unfolding_all decide, by with_unfolding_all decide,
    by with_unfolding_all decide, by with_unfolding_all decide,
    by with_unfolding_all decide⟩
  · intro hlt
    unfold check_token_bucket
    dsimp only
    rw [hget]
    dsimp only
    rw [hb]
    dsimp only
    rw [if_pos hlt, if_neg hne]
  · intro hge
    have hset : store.set (bucketKey rule.name idf)
        (.bucket (tbNewTokens rule now tk lr mx - 1) now mx) 3600 =
        .ok (storeWith store (bucketKey rule.name idf)
          (.bucket (tbNewTokens rule now tk lr mx - 1) now mx)) := by
      unfold Store.set; rw [hd]; rfl
    unfold check_token_bucket
    dsimp only
    rw [hget]
    dsimp only
    rw [hb]
    dsimp only
    rw [if_neg (not_lt.mpr hge), hset]

set_option maxRecDepth 8000 in
/-- Witness for C5: the first request against an unseen bucket (capacity 5)
is allowed and the persisted bucket holds 4 tokens. -/
theorem c5_token_bucket_witness :
    bucketFetch (emptyStore.data (bucketKey "chat" "ip:1.1.1.1")) 1000
      tbRule.burst_allowance = some (5, 1000, 5) ∧
    tbRule.requests_per_minute ≠ 0 ∧
    (1 : ℚ) ≤ tbNewTokens tbRule 1000 5 1000 5 ∧
    (check_token_bucket emptyStore 1000 "ip:1.1.1.1" tbRule).1.allowed = true ∧
    (check_token_bucket emptyStore 1000 "ip:1.1.1.1" tbRule).2.data
      (bucketKey "chat" "ip:1.1.1.1") = some (.bucket 4 1000 5) := by
  have h := (c5_token_bucket emptyStore 1000 "ip:1.1.1.1" tbRule 5 1000 5 rfl
    (by decide) (by decide)).2.1 (by with_unfolding_all decide)
  exact ⟨by decide, by decide, by with_unfolding_all decide, by rw [h],
    by rw [h]; with_unfolding_all decide⟩

set_option maxRecDepth 8000 in
/-- Counterexample to C5 as stated: with refill rate 1/3 tokens per second
and half a token in the bucket, the exact `(1 - new_tokens) / refill_rate` is
1.5 seconds but the decision reports the truncated `retry_after = 1`. -/
theorem c5_counterexample :
    (check_token_bucket halfTokenStore 1000 "ip:1.1.1.1" tbRuleThird).1.allowed
      = false ∧
    (check_token_bucket halfTokenStore 1000 "ip:1.1.1.1" tbRuleThird).1.retry_after
      = some 1 ∧
    (1 - tbNewTokens tbRuleThird 1000 (1 / 2) 1000 5) / tbRefill tbRuleThird
      = 3 / 2 ∧
    ((3 : ℚ) / 2 ≠ (1 : ℤ)) := by with_unfolding_all decide

/-- Pre-filtering the exempted rules away does not change the rule loop. -/
theorem check_rules_loop_filter (req : Request) (idf : String) (stats : Stats)
    (now : ℚ) : ∀ (rs : List RateLimitRule) (store : Store),
    check_rules_loop store req idf stats now rs =
      check_rules_loop store req idf stats now
        (rs.filter (fun r2 => !(is_exempted req r2))) := by
  intro rs
  induction rs with
  | nil => intro store; rfl
  | cons r rest ih =>
    intro store
    cases he : is_exempted req r with
    | true =>
      rw [List.filter_cons_of_neg (by simp [he])]
      simp only [check_rules_loop, he, if_true]
      exact ih store
    | false =>
      rw [List.filter_cons_of_pos (by simp [he])]
      simp only [check_rules_loop, he, Bool.false_eq_true, if_false]
      by_cases hal : (check_rule_limit store idf r stats now).1.allowed
      · simp only [hal, if_true]
        exact ih _
      · simp only [hal, Bool.false_eq_true, if_false]

/-- Once a prefix of the rule list already denies, any rules appended after
it are never evaluated: the loop result is exactly the prefix's result. -/
theorem check_rules_loop_append_deny (req : Request) (idf : String) (stats : Stats)
    (now : ℚ) : ∀ (rs1 rs2 : List RateLimitRule) (store : Store),
    (check_rules_loop store req idf stats now rs1).1.allowed = false →
    check_rules_loop store req idf stats now (rs1 ++ rs2) =
      check_rules_loop store req idf stats now rs1 := by
  intro rs1
  induction rs1 with
  | nil =>
    intro rs2 store h
    exact absurd h (by simp [check_rules_loop, allowResult])
  | cons r rest ih =>
    intro rs2 store h
    rw [List.cons_append]
    cases he : is_exempted req r with
    | true =>
      simp only [check_rules_loop, he, if_true] at h ⊢
      exact ih rs2 store h
    | false =>
      simp only [check_rules_loop, he, Bool.false_eq_true, if_false] at h ⊢
      by_cases hal : (check_rule_limit store idf r stats now).1.allowed
      · simp only [hal, if_true] at h ⊢
        exact ih rs2 _ h
      · simp only [hal, Bool.false_eq_true, if_false]

/-- **C3** — deterministic rule precedence: (a) the loop sees exactly the
non-exempt rules, in declared order; (b) once a prefix of the table denies,
whatever rules follow are never evaluated (the result and the store are those
of the prefix alone); (c) a non-exempt rule whose strategy denies produces
the whole decision — its name and its decision's retry_after / reset_time via
`denyResult` — and the loop stops at its store.  Identical outcomes for
identical tables and counter history hold because `check_rate_limits` is a
pure function of (request, rule table, store, stats, clock). -/
theorem c3_first_deny_wins (store : Store) (req : Request) (idf : String)
    (stats : Stats) (now : ℚ) (rs1 rs2 : List RateLimitRule) (r : RateLimitRule) :
    (check_rules_loop store req idf stats now rs1 =
      check_rules_loop store req idf stats now
        (rs1.filter (fun r2 => !(is_exempted req r2)))) ∧
    ((check_rules_loop store req idf stats now rs1).1.allowed = false →
      check_rules_loop store req idf stats now (rs1 ++ rs2) =
        check_rules_loop store req idf stats now rs1) ∧
    (is_exempted req r = false →
      (check_rule_limit store idf r stats now).1.allowed = false →
      check_rules_loop store req idf stats now (r :: rs2) =
        (denyResult idf r (check_rule_limit store idf r stats now).1,
         (check_rule_limit store idf r stats now).2)) := by
  refine ⟨check_rules_loop_filter req idf stats now rs1 store,
    check_rules_loop_append_deny req idf stats now rs1 rs2 store, ?_⟩
  intro hex hdeny
  simp only [check_rules_loop, hex, Bool.false_eq_true, if_false, hdeny]

/-- Witness for C3: `looseRule` (100/min, declared first) passes while
`strictRule` (2/min, declared second, counter at 2) denies; appending
`tailRule` changes nothing, and the decision is `strictRule`'s. -/
theorem c3_first_deny_wins_witness :
    (check_rules_loop strictStore reqIp "ip:1.1.1.1" initStats 1000
      [looseRule, strictRule]).1.allowed = false ∧
    check_rules_loop strictStore reqIp "ip:1.1.1.1" initStats 1000
        ([looseRule, strictRule] ++ [tailRule]) =
      check_rules_loop strictStore reqIp "ip:1.1.1.1" initStats 1000
        [looseRule, strictRule] ∧
    is_exempted reqIp strictRule = false ∧
    (check_rule_limit strictStore "ip:1.1.1.1" strictRule initStats 1000).1.allowed
      = false ∧
    check_rules_loop strictStore reqIp "ip:1.1.1.1" initStats 1000
        (strictRule :: [tailRule]) =
      (denyResult "ip:1.1.1.1" strictRule
        (check_rule_limit strictStore "ip:1.1.1.1" strictRule initStats 1000).1,
       (check_rule_limit strictStore "ip:1.1.1.1" strictRule initStats 1000).2) :=
  ⟨by decide,
   (c3_first_deny_wins strictStore reqIp "ip:1.1.1.1" initStats 1000
      [looseRule, strictRule] [tailRule] strictRule).2.1 (by decide),
   by decide, by decide,
   (c3_first_deny_wins strictStore reqIp "ip:1.1.1.1" initStats 1000
      [looseRule, strictRule] [tailRule] strictRule).2.2 (by decide) (by decide)⟩

/-- A denial produced by the rule loop always originates from a non-exempt
rule of the list, whose name the result reports. -/
theorem check_rules_loop_deny_nonexempt (req : Request) (idf : String)
    (stats : Stats) (now : ℚ) : ∀ (rs : List RateLimitRule) (store : Store),
    (check_rules_loop store req idf stats now rs).1.allowed = false →
    ∃ r ∈ rs, is_exempted req r = false ∧
      (check_rules_loop store req idf stats now rs).1.rule_name = some r.name := by
  intro rs
  induction rs with
  | nil =>
    intro store h
    exact absurd h (by simp [check_rules_loop, allowResult])
  | cons r rest ih =>
    intro store h
    cases he : is_exempted req r with
    | true =>
      simp only [check_rules_loop, he, if_true] at h ⊢
      obtain ⟨r2, hr2, hne, hname⟩ := ih store h
      exact ⟨r2, List.mem_cons_of_mem r hr2, hne, hname⟩
    | false =>
      simp only [check_rules_loop, he, Bool.false_eq_true, if_false] at h ⊢
      by_cases hal : (check_rule_limit store idf r stats now).1.allowed
      · simp only [hal, if_true] at h ⊢
        obtain ⟨r2, hr2, hne, hname⟩ := ih _ h
        exact ⟨r2, List.mem_cons_of_mem r hr2, hne, hname⟩
      · simp only [hal, Bool.false_eq_true, if_false]
        exact ⟨r, List.mem_cons_self r rest, he, rfl⟩

/-- **C1** (amended) — per-rule exemption guarantee: exempted rules are
skipped entirely by the check, so (a) dropping them from the applicable list
changes neither the decision nor the store — they are never read and never
block, whatever other rules apply; (b) any denial is produced by a
*non-exempt* applicable rule, whose name the decision reports — a caller is
never denied by a rule it is exempted from; and (c) when every applicable
rule is exempted the request passes with the Counter Store untouched.  The
record step, however, still increments each applicable rule's counters on
allowed requests, exemption notwithstanding (the counterexample exhibits
this) — that clause alone fails.  Store ops spec-modelled (§4.5). -/
theorem c1_exempt_never_denied (store : Store) (req : Request)
    (rules : List RateLimitRule) (stats : Stats) (now : ℚ) :
    (check_rate_limits store req rules stats now =
      check_rules_loop store req (get_request_identifier req) stats now
        ((get_applicable_rules rules req.path req.method req).filter
          (fun r => !(is_exempted req r)))) ∧
    ((check_rate_limits store req rules stats now).1.allowed = false →
      ∃ r ∈ get_applicable_rules rules req.path req.method req,
        is_exempted req r = false ∧
        (check_rate_limits store req rules stats now).1.rule_name = some r.name) ∧
    ((∀ r ∈ get_applicable_rules rules req.path req.method req,
        is_exempted req r = true) →
      (check_rate_limits store req rules stats now).1.allowed = true ∧
      (check_rate_limits store req rules stats now).2 = store) := by
  refine ⟨?_, ?_, ?_⟩
  · unfold check_rate_limits
    exact check_rules_loop_filter req (get_request_identifier req) stats now
      (get_applicable_rules rules req.path req.method req) store
  · intro h
    unfold check_rate_limits at h ⊢
    exact check_rules_loop_deny_nonexempt req (get_request_identifier req) stats now
      (get_applicable_rules rules req.path req.method req) store h
  · intro h
    unfold check_rate_limits
    rw [check_rules_loop_all_exempt req (get_request_identifier req) stats now
      (get_applicable_rules rules req.path req.method req) store h]
    exact ⟨rfl, rfl⟩

/-- Witness for C1: `alice` is exempted from `exRule` but not from
`strictRule`; with both rules applicable and `strictRule`'s counter at its
threshold, the check denies, and the denying rule is the non-exempt
`strictRule` — never the exempted one. -/
theorem c1_exempt_never_denied_witness :
    is_exempted reqAlice exRule = true ∧
    is_exempted reqAlice strictRule = false ∧
    (check_rate_limits strictAliceStore reqAlice [exRule, strictRule] initStats
      1000).1.allowed = false ∧
    (check_rate_limits strictAliceStore reqAlice [exRule, strictRule] initStats
      1000).1.rule_name = some "strict" ∧
    (∃ r ∈ get_applicable_rules [exRule, strictRule] reqAlice.path reqAlice.method
        reqAlice,
      is_exempted reqAlice r = false ∧
      (check_rate_limits strictAliceStore reqAlice [exRule, strictRule] initStats
        1000).1.rule_name = some r.name) :=
  ⟨by decide, by decide, by decide, by decide,
   (c1_exempt_never_denied strictAliceStore reqAlice [exRule, strictRule] initStats
      1000).2.1 (by decide)⟩

/-- **C8** (amended) — identifier resolution follows the strict priority
chain and is total (the embedding is a total function, so a value is always
produced and no error escapes): authenticated user id first, else the
API-key hash — the *first 16 hex characters* of the SHA-256 hexdigest, not
the full digest the claim states (see the counterexample) — else the session
header, else `"ip:" ++` client IP, where the client IP is the first
forwarded-for entry when that header is truthy and the transport peer
address otherwise. -/
theorem c8_identifier_chain (req : Request) :
    (strTruthy (req.user.bind fun u => u.user_id) = true →
      get_request_identifier req =
        "user:" ++ (req.user.bind fun u => u.user_id).getD "") ∧
    (strTruthy (req.user.bind fun u => u.user_id) = false →
      strTruthy (req.headers "X-API-Key") = true →
      get_request_identifier req =
        "api_key:" ++ pyTake (sha256hex ((req.headers "X-API-Key").getD "")) 16) ∧
    (strTruthy (req.user.bind fun u => u.user_id) = false →
      strTruthy (req.headers "X-API-Key") = false →
      strTruthy (req.headers "X-Session-ID") = true →
      get_request_identifier req =
        "session:" ++ (req.headers "X-Session-ID").getD "") ∧
    (strTruthy (req.user.bind fun u => u.user_id) = false →
      strTruthy (req.headers "X-API-Key") = false →
      strTruthy (req.headers "X-Session-ID") = false →
      get_request_identifier req = "ip:" ++ get_client_ip req) := by
  refine ⟨?_, ?_, ?_, ?_⟩
  · intro h1
    simp [get_request_identifier, h1]
  · intro h1 h2
    simp [get_request_identifier, h1, h2]
  · intro h1 h2 h3
    simp [get_request_identifier, h1, h2, h3]
  · intro h1 h2 h3
    simp [get_request_identifier, h1, h2, h3]

/-- Witness for C8: a request with neither identity nor API key but a session
header resolves to `"session:" ++` the header value. -/
theorem c8_identifier_chain_witness :
    strTruthy (reqSession.user.bind fun u => u.user_id) = false ∧
    strTruthy (reqSession.headers "X-API-Key") = false ∧
    strTruthy (reqSession.headers "X-Session-ID") = true ∧
    get_request_identifier reqSession = "session:sess-9" :=
  ⟨by decide, by decide, by decide,
   (c8_identifier_chain reqSession).2.2.1 (by decide) (by decide) (by decide)⟩

set_option maxRecDepth 100000 in
/-- Counterexample to C8 as stated: the code keys API callers by the first
16 hex characters of the digest, not by the full 64-character
`sha256(key)` hexdigest the claim describes. -/
theorem c8_counterexample :
    get_request_identifier reqApiKey = "api_key:" ++ pyTake (sha256hex "secret") 16 ∧
    get_request_identifier reqApiKey ≠ "api_key:" ++ sha256hex "secret" := by
  refine ⟨by decide, by decide⟩

/-- Reading a key other than the one rebound is unchanged. -/
theorem storeWith_data_ne (s : Store) (k2 : String) (v : CacheVal) (k : String)
    (h : k ≠ k2) : (storeWith s k2 v).data k = s.data k := by
  unfold storeWith
  simp [h]

/-- `increment` on a reachable store succeeds. -/
theorem increment_not_down (s : Store) (k : String) (amount : ℤ) (ttl : ℕ)
    (hd : s.down = false) : s.increment k amount ttl =
      .ok (intAt s k + amount, storeWith s k (.int (intAt s k + amount))) := by
  unfold Store.increment
  rw [hd]
  rfl

/-- A successful `increment` preserves reachability and every other key. -/
theorem increment_ok_frame (s : Store) (k : String) (amount : ℤ) (ttl : ℕ)
    (p : ℤ × Store) (h : s.increment k amount ttl = .ok p) :
    p.2.down = s.down ∧ ∀ k2, k2 ≠ k → p.2.data k2 = s.data k2 := by
  unfold Store.increment at h
  by_cases hdn : s.down
  · rw [if_pos hdn] at h
    exact absurd h (by simp)
  · rw [if_neg hdn] at h
    have hp : p = (intAt s k + amount, storeWith s k (.int (intAt s k + amount))) := by
      injection h with h2
      exact h2.symm
    rw [hp]
    exact ⟨rfl, fun k2 hk2 => storeWith_data_ne s k _ k2 hk2⟩

/-- The record loop keeps the store reachable and touches no key outside the
minute/hour/day keys of the rules it walks. -/
theorem record_loop_frame (idf : String) (t : ℤ) :
    ∀ (rs : List RateLimitRule) (store : Store) (k : String),
    store.down = false →
    (∀ r ∈ rs, k ≠ minuteKey r.name idf t ∧ k ≠ hourKey r.name idf t ∧
      k ≠ dayKey r.name idf t) →
    (record_loop store idf t rs).down = false ∧
    (record_loop store idf t rs).data k = store.data k := by
  intro rs
  induction rs with
  | nil => intro store k hd _; exact ⟨hd, rfl⟩
  | cons r rest ih =>
    intro store k hd hk
    obtain ⟨hne1, hne2, hne3⟩ := hk r (List.mem_cons_self r rest)
    have hrest := fun r2 h2 => hk r2 (List.mem_cons_of_mem r h2)
    have e1 := increment_not_down store (minuteKey r.name idf t) 1 60 hd
    simp only [record_loop]
    rw [e1]
    dsimp only
    set s1 := storeWith store (minuteKey r.name idf t)
      (.int (intAt store (minuteKey r.name idf t) + 1)) with hs1
    have e2 := increment_not_down s1 (hourKey r.name idf t) 1 3600 hd
    rw [e2]
    dsimp only
    set s2 := storeWith s1 (hourKey r.name idf t)
      (.int (intAt s1 (hourKey r.name idf t) + 1)) with hs2
    have e3 := increment_not_down s2 (dayKey r.name idf t) 1 86400 hd
    rw [e3]
    dsimp only
    set s3 := storeWith s2 (dayKey r.name idf t)
      (.int (intAt s2 (dayKey r.name idf t) + 1)) with hs3
    obtain ⟨ihdown, ihdata⟩ := ih s3 k hd hrest
    refine ⟨ihdown, ?_⟩
    rw [ihdata, hs3, storeWith_data_ne _ _ _ _ hne3, hs2,
      storeWith_data_ne _ _ _ _ hne2, hs1, storeWith_data_ne _ _ _ _ hne1]

/-- One dispatch of the adaptive scenario: whatever the process stats, the
request is admitted, the rule table persists, the adaptive clone's counters
stay absent (the record step writes under `"api"` while the clone reads
under `"api_adaptive"`), and no denial is counted. -/
theorem ad_dispatch_step (stats : Stats) (store : Store)
    (hd : store.down = false)
    (h1 : store.data (minuteKey "api_adaptive" "ip:1.1.1.1" 1000) = none)
    (h2 : store.data (hourKey "api_adaptive" "ip:1.1.1.1" 1000) = none)
    (h3 : store.data (dayKey "api_adaptive" "ip:1.1.1.1" 1000) = none) :
    (dispatch ⟨[adRule], stats, store⟩ reqIp 1000).1.allowed = true ∧
    (dispatch ⟨[adRule], stats, store⟩ reqIp 1000).2.rules = [adRule] ∧
    (dispatch ⟨[adRule], stats, store⟩ reqIp 1000).2.store.down = false ∧
    (dispatch ⟨[adRule], stats, store⟩ reqIp 1000).2.store.data
      (minuteKey "api_adaptive" "ip:1.1.1.1" 1000) = none ∧
    (dispatch ⟨[adRule], stats, store⟩ reqIp 1000).2.store.data
      (hourKey "api_adaptive" "ip:1.1.1.1" 1000) = none ∧
    (dispatch ⟨[adRule], stats, store⟩ reqIp 1000).2.store.data
      (dayKey "api_adaptive" "ip:1.1.1.1" 1000) = none ∧
    (dispatch ⟨[adRule], stats, store⟩ reqIp 1000).2.stats.blocked_requests =
      stats.blocked_requests := by
  have hm9 : counterVal (store.data (minuteKey (adRule.name ++ "_adaptive")
      "ip:1.1.1.1" (pyIntTrunc 1000))) = some 0 := by
    rw [show minuteKey (adRule.name ++ "_adaptive") "ip:1.1.1.1" (pyIntTrunc 1000) =
      minuteKey "api_adaptive" "ip:1.1.1.1" 1000 by decide, h1]
    rfl
  have hh9 : counterVal (store.data (hourKey (adRule.name ++ "_adaptive")
      "ip:1.1.1.1" (pyIntTrunc 1000))) = some 0 := by
    rw [show hourKey (adRule.name ++ "_adaptive") "ip:1.1.1.1" (pyIntTrunc 1000) =
      hourKey "api_adaptive" "ip:1.1.1.1" 1000 by decide, h2]
    rfl
  have hd9 : counterVal (store.data (dayKey (adRule.name ++ "_adaptive")
      "ip:1.1.1.1" (pyIntTrunc 1000))) = some 0 := by
    rw [show dayKey (adRule.name ++ "_adaptive") "ip:1.1.1.1" (pyIntTrunc 1000) =
      dayKey "api_adaptive" "ip:1.1.1.1" 1000 by decide, h3]
    rfl
  have hadapt : ∀ s2 : Stats, ∃ d : Decision,
      check_rule_limit store "ip:1.1.1.1" adRule s2 1000 = (d, store) ∧
      d.allowed = true := by
    intro s2
    rw [show check_rule_limit store "ip:1.1.1.1" adRule s2 1000 =
      check_adaptive_limit store 1000 "ip:1.1.1.1" adRule s2 from rfl]
    unfold check_adaptive_limit
    dsimp only
    have hLpos : (0 : ℤ) <
        (if get_system_load s2 > 8 / 10 then
          pyIntTrunc ((adRule.requests_per_minute : ℚ) * (5 / 10))
        else if get_system_load s2 > 6 / 10 then
          pyIntTrunc ((adRule.requests_per_minute : ℚ) * (7 / 10))
        else adRule.requests_per_minute) := by
      split
      · with_unfolding_all decide
      · split
        · with_unfolding_all decide
        · decide
    revert hLpos
    generalize (if get_system_load s2 > 8 / 10 then
        pyIntTrunc ((adRule.requests_per_minute : ℚ) * (5 / 10))
      else if get_system_load s2 > 6 / 10 then
        pyIntTrunc ((adRule.requests_per_minute : ℚ) * (7 / 10))
      else adRule.requests_per_minute) = L
    intro hLpos
    rw [check_sliding_window_eq store 1000 "ip:1.1.1.1"
      { name := adRule.name ++ "_adaptive", requests_per_minute := L,
        requests_per_hour := adRule.requests_per_hour,
        requests_per_day := adRule.requests_per_day } 0 0 0 hd hm9 hh9 hd9]
    refine ⟨_, rfl, ?_⟩
    unfold layeredWindowSpec
    rw [if_neg (by dsimp only; omega), if_neg (by dsimp only; decide),
      if_neg (by dsimp only; decide)]
  have happ : get_applicable_rules [adRule] reqIp.path reqIp.method reqIp =
      [adRule] := by decide
  have hcheck : ∀ s2 : Stats,
      check_rate_limits store reqIp [adRule] s2 1000 =
        (allowResult "ip:1.1.1.1", store) := by
    intro s2
    unfold check_rate_limits
    rw [show get_request_identifier reqIp = "ip:1.1.1.1" by decide, happ]
    obtain ⟨d, hdres, hdallow⟩ := hadapt s2
    simp only [check_rules_loop, show is_exempted reqIp adRule = false by decide,
      Bool.false_eq_true, if_false]
    rw [hdres]
    try dsimp only
    rw [if_pos hdallow]
  have hrec : record_request store reqIp [adRule] "ip:1.1.1.1" 1000 =
      record_loop store "ip:1.1.1.1" (pyIntTrunc 1000) [adRule] := by
    unfold record_request
    rw [happ]
  have hfrm := fun (k : String) hk =>
    record_loop_frame "ip:1.1.1.1" (pyIntTrunc 1000) [adRule] store k hd hk
  have hdisp : dispatch ⟨[adRule], stats, store⟩ reqIp 1000 =
      (⟨true, allowResult "ip:1.1.1.1"⟩,
       ⟨[adRule], { stats with total_requests := stats.total_requests + 1 },
        record_loop store "ip:1.1.1.1" (pyIntTrunc 1000) [adRule]⟩) := by
    unfold dispatch
    dsimp only
    rw [hcheck _]
    dsimp only [allowResult]
    rw [if_pos rfl, hrec]
  rw [hdisp]
  refine ⟨rfl, rfl,
    (hfrm (minuteKey "api_adaptive" "ip:1.1.1.1" 1000) (by decide)).1, ?_, ?_, ?_, rfl⟩
  · rw [(hfrm (minuteKey "api_adaptive" "ip:1.1.1.1" 1000) (by decide)).2, h1]
  · rw [(hfrm (hourKey "api_adaptive" "ip:1.1.1.1" 1000) (by decide)).2, h2]
  · rw [(hfrm (dayKey "api_adaptive" "ip:1.1.1.1" 1000) (by decide)).2, h3]

/-- The adaptive scenario invariant holds at every step: the rule table, the
store's reachability, the absence of the clone's counters, and the block
count all persist. -/
theorem adRun_invariant : ∀ n : ℕ,
    (adRun n).rules = [adRule] ∧
    (adRun n).store.down = false ∧
    (adRun n).store.data (minuteKey "api_adaptive" "ip:1.1.1.1" 1000) = none ∧
    (adRun n).store.data (hourKey "api_adaptive" "ip:1.1.1.1" 1000) = none ∧
    (adRun n).store.data (dayKey "api_adaptive" "ip:1.1.1.1" 1000) = none ∧
    (adRun n).stats.blocked_requests = 1000 := by
  intro n
  induction n with
  | zero => exact ⟨rfl, rfl, rfl, rfl, rfl, rfl⟩
  | succ n ih =>
    obtain ⟨hr, hd, h1, h2, h3, hb⟩ := ih
    have hsplit : adRun n = ⟨[adRule], (adRun n).stats, (adRun n).store⟩ := by
      rw [← hr]
    have hstep := ad_dispatch_step (adRun n).stats (adRun n).store hd h1 h2 h3
    have hnext : adRun (n + 1) =
        (dispatch ⟨[adRule], (adRun n).stats, (adRun n).store⟩ reqIp 1000).2 := by
      show (dispatch (adRun n) reqIp 1000).2 = _
      rw [← hsplit]
    rw [hnext]
    exact ⟨hstep.2.1, hstep.2.2.1, hstep.2.2.2.1, hstep.2.2.2.2.1,
      hstep.2.2.2.2.2.1, hstep.2.2.2.2.2.2.trans hb⟩

/-- **C6** — evaluation of the code at the claim's failing input: with the
stats forced to `blocked/total = 1` (load above 0.8, halving the 100/min base
to 50/min exactly as the claim's formula says), *every* request of the
scenario is admitted — the 51st included — and the block counter never
moves, because `_check_adaptive_limit` reads counters under the clone name
`"api_adaptive"` while `_record_request` increments counters under the
original rule name `"api"`; the adaptive rule's counters therefore stay at 0
forever and the promised denial at the 51st request cannot occur.  Store ops
spec-modelled (§4.5). -/
theorem c6_adaptive_never_denies :
    get_system_load { adStats with total_requests := adStats.total_requests + 1 }
      = 1 ∧
    ((1 : ℚ) > 8 / 10) ∧
    pyIntTrunc ((adRule.requests_per_minute : ℚ) * (5 / 10)) = 50 ∧
    (∀ n : ℕ, (dispatch (adRun n) reqIp 1000).1.allowed = true ∧
      (adRun n).stats.blocked_requests = 1000) := by
  refine ⟨by with_unfolding_all decide, by with_unfolding_all decide,
    by with_unfolding_all decide, ?_⟩
  intro n
  obtain ⟨hr, hd, h1, h2, h3, hb⟩ := adRun_invariant n
  have hsplit : adRun n = ⟨[adRule], (adRun n).stats, (adRun n).store⟩ := by
    rw [← hr]
  have hstep := ad_dispatch_step (adRun n).stats (adRun n).store hd h1 h2 h3
  constructor
  · rw [hsplit]
    exact hstep.1
  · exact hb

/-- Updating an absent-elsewhere key changes nothing in the hit dict. -/
theorem hits_map_update_id (name : String) :
    ∀ l : List (String × ℤ), name ∉ l.map Prod.fst →
    l.map (fun p => if p.1 = name then (p.1, p.2 + 1) else p) = l := by
  intro l
  induction l with
  | nil => intro _; rfl
  | cons p t ih =>
    intro h
    simp only [List.map_cons, List.mem_cons] at h
    push_neg at h
    have hp : p.1 ≠ name := fun he => h.1 he.symm
    simp only [List.map_cons, if_neg hp]
    exact congrArg (List.cons p) (ih h.2)

/-- Bumping one existing key raises the hit total by exactly one (keys are
unique). -/
theorem sum_hits_update (name : String) :
    ∀ l : List (String × ℤ), (l.map Prod.fst).Nodup →
    l.any (fun q => q.1 = name) = true →
    sum_hits (l.map (fun p => if p.1 = name then (p.1, p.2 + 1) else p)) =
      sum_hits l + 1 := by
  intro l
  induction l with
  | nil => intro _ hany; simp at hany
  | cons p t ih =>
    intro hnd hany
    simp only [List.map_cons, List.nodup_cons] at hnd
    by_cases hp : p.1 = name
    · have hnin : name ∉ t.map Prod.fst := hp ▸ hnd.1
      simp only [List.map_cons, if_pos hp, hits_map_update_id name t hnin]
      simp [sum_hits]
      ring
    · have hany2 : t.any (fun q => q.1 = name) = true := by
        simp only [List.any_cons] at hany
        rcases Bool.or_eq_true_iff.mp hany with h1 | h1
        · exact absurd (of_decide_eq_true h1) hp
        · exact h1
      simp only [List.map_cons, if_neg hp]
      simp only [sum_hits, List.map_cons, List.sum_cons] at ih ⊢
      rw [ih hnd.2 hany2]
      ring

/-- A per-rule hit update keeps the hit total one above and the keys unique. -/
theorem hitsIncr_sum_nodup (l : List (String × ℤ)) (name : String)
    (h : (l.map Prod.fst).Nodup) :
    sum_hits (hitsIncr l name) = sum_hits l + 1 ∧
    ((hitsIncr l name).map Prod.fst).Nodup := by
  unfold hitsIncr
  by_cases hany : l.any (fun q => q.1 = name) = true
  · rw [if_pos hany]
    refine ⟨sum_hits_update name l h hany, ?_⟩
    have hfst : (l.map (fun p => if p.1 = name then (p.1, p.2 + 1) else p)).map
        Prod.fst = l.map Prod.fst := by
      rw [List.map_map]
      exact List.map_congr_left (fun p _ => by
        simp only [Function.comp_apply]
        split <;> rfl)
    rw [hfst]
    exact h
  · rw [if_neg hany]
    have hnin : name ∉ l.map Prod.fst := by
      intro hmem
      obtain ⟨p, hpl, hpn⟩ := List.mem_map.mp hmem
      exact hany (List.any_eq_true.mpr ⟨p, hpl, decide_eq_true hpn⟩)
    constructor
    · simp [sum_hits]
    · rw [List.map_append]
      refine List.nodup_append.mpr ⟨h, List.nodup_singleton name, ?_⟩
      intro a ha hb
      rw [List.mem_singleton.mp hb] at ha
      exact hnin ha

/-- One dispatch either only counts the request, or additionally counts the
block and bumps exactly one rule's hit counter. -/
theorem dispatch_stats_cases (st : MwState) (req : Request) (now : ℚ) :
    (dispatch st req now).2.stats =
      { st.stats with total_requests := st.stats.total_requests + 1 } ∨
    ∃ name : String, (dispatch st req now).2.stats =
      { st.stats with
          total_requests := st.stats.total_requests + 1,
          blocked_requests := st.stats.blocked_requests + 1,
          rate_limit_hits := hitsIncr st.stats.rate_limit_hits name } := by
  unfold dispatch
  dsimp only
  by_cases hc : (check_rate_limits st.store req st.rules
      { st.stats with total_requests := st.stats.total_requests + 1 } now).1.allowed
    = true
  · left
    rw [if_pos hc]
  · right
    exact ⟨(check_rate_limits st.store req st.rules
        { st.stats with total_requests := st.stats.total_requests + 1 }
        now).1.rule_name.getD "",
      by rw [if_neg hc]⟩

/-- The stats invariant is preserved by every dispatch. -/
theorem statsInv_dispatch (st : MwState) (req : Request) (now : ℚ)
    (h : statsInv st.stats) : statsInv (dispatch st req now).2.stats := by
  obtain ⟨h1, h2, h3, h4⟩ := h
  rcases dispatch_stats_cases st req now with hcase | ⟨name, hcase⟩ <;> rw [hcase]
  · exact ⟨h1,
      by exact (show st.stats.blocked_requests ≤ st.stats.total_requests + 1 by
        omega), h3, h4⟩
  · obtain ⟨hsum, hnodup⟩ := hitsIncr_sum_nodup st.stats.rate_limit_hits name h4
    refine ⟨?_, ?_, ?_, ?_⟩
    · show st.stats.blocked_requests + 1 =
        sum_hits (hitsIncr st.stats.rate_limit_hits name)
      rw [hsum, ← h1]
    · show st.stats.blocked_requests + 1 ≤ st.stats.total_requests + 1
      omega
    · show (0 : ℤ) ≤ st.stats.blocked_requests + 1
      omega
    · exact hnodup

/-- The stats invariant is preserved by any run of requests. -/
theorem run_dispatches_statsInv : ∀ (reqs : List (Request × ℚ)) (st : MwState),
    statsInv st.stats → statsInv (run_dispatches st reqs).stats := by
  intro reqs
  induction reqs with
  | nil => intro st h; exact h
  | cons p rest ih =>
    intro st h
    obtain ⟨req, now⟩ := p
    exact ih _ (statsInv_dispatch st req now h)

/-- **C10** — process-local stats invariant: over any request sequence from a
fresh middleware, `blocked_requests` equals the total of the per-rule
`rate_limit_hits` counters and never exceeds `total_requests`; and
`get_stats` always reports `success_rate + block_rate = 1`, with
`success_rate = 1` when no request has been counted. -/
theorem c10_stats_invariant (rules : List RateLimitRule) (store : Store)
    (reqs : List (Request × ℚ)) (stats : Stats) :
    statsInv (run_dispatches ⟨rules, initStats, store⟩ reqs).stats ∧
    (get_stats stats).success_rate + (get_stats stats).block_rate = 1 ∧
    (stats.total_requests = 0 → (get_stats stats).success_rate = 1) := by
  refine ⟨run_dispatches_statsInv reqs ⟨rules, initStats, store⟩
    ⟨rfl, le_refl _, le_refl _, List.nodup_nil⟩, ?_, ?_⟩
  · unfold get_stats
    dsimp only
    ring
  · intro h0
    unfold get_stats
    dsimp only
    rw [if_neg (by omega)]

/-- Witness for C10: after one request from a fresh middleware the invariant
holds, and the fresh stats report a success rate of 1. -/
theorem c10_stats_invariant_witness :
    initStats.total_requests = 0 ∧
    (get_stats initStats).success_rate = 1 ∧
    statsInv (run_dispatches ⟨[exRule], initStats, emptyStore⟩
      [(reqIp, 1000)]).stats :=
  ⟨rfl, (c10_stats_invariant [exRule] emptyStore [(reqIp, 1000)] initStats).2.2 rfl,
   (c10_stats_invariant [exRule] emptyStore [(reqIp, 1000)] initStats).1⟩
